import Mathlib

/- Shallow embedding of apps/web/pages/event-types/ type /index.tsx:
   the form data model, the two submit handlers (the named handleSubmit
   used by the dialog confirmation, and the inline Form handleSubmit),
   the metadata initialization for team events, the slug-collision
   confirmation dialog and the tab selector.  A submit handler returns
   Except SubmitError UpdatePayload: an error value models a thrown
   validation error (so the remote update mutation is never invoked),
   an ok value models exactly one call to updateMutation.mutate with
   the given payload.  JavaScript numbers are modelled as Int, nullable
   and optional values as Option, and JavaScript truthiness of a number
   as being nonzero. -/

/-- Interval limit map of the types package: one optional bound per
period unit, listed from the narrowest unit to the broadest
(day, week, month, year). -/
structure IntervalLimit where
  perDay : Option Int
  perWeek : Option Int
  perMonth : Option Int
  perYear : Option Int
  deriving Repr, DecidableEq

/-- Booker layout settings stored inside metadata. -/
structure BookerLayoutSettings where
  enabledLayouts : List String
  defaultLayoutType : String
  deriving Repr, DecidableEq

/-- Stripe app entry of metadata.apps. -/
structure StripeAppMeta where
  paymentOption : Option String
  deriving Repr, DecidableEq

/-- The apps object of metadata. -/
structure AppsMeta where
  stripe : Option StripeAppMeta
  deriving Repr, DecidableEq

/-- The config object of metadata; its only key in the schema is
useHostSchedulesForTeamEvent. -/
structure ConfigMeta where
  useHostSchedulesForTeamEvent : Option Bool
  deriving Repr, DecidableEq

/-- Event-type metadata (EventTypeMetaDataSchema), restricted to the
keys this page reads. -/
structure EventTypeMetaData where
  config : Option ConfigMeta
  apps : Option AppsMeta
  multipleDuration : Option (List Int)
  bookerLayouts : Option BookerLayoutSettings
  deriving Repr, DecidableEq

/-- Destination calendar reference of the form values. -/
structure DestinationCalendar where
  integration : String
  externalId : String
  deriving Repr, DecidableEq

/-- Owner back-reference of a child event type; eventTypeSlugs holds
the sibling slugs of that owner. -/
structure ChildOwner where
  id : Int
  name : String
  eventTypeSlugs : List String
  deriving Repr, DecidableEq

/-- A child (managed) event type entry of the children list. -/
structure ChildrenEventType where
  slug : String
  owner : ChildOwner
  created : Bool
  deriving Repr, DecidableEq

/-- A host entry: user id and the isFixed flag. -/
structure Host where
  userId : Int
  isFixed : Bool
  deriving Repr, DecidableEq

/-- The periodDates pair of the form values (dates as timestamps). -/
structure PeriodDatePair where
  startDate : Int
  endDate : Int
  deriving Repr, DecidableEq

/-- A recurring-event descriptor (opaque pass-through data). -/
structure RecurringEvent where
  freq : Int
  count : Int
  interval : Int
  deriving Repr, DecidableEq

/-- One location variant of the locations list. -/
structure LocationValue where
  type : String
  address : Option String
  attendeeAddress : Option String
  link : Option String
  hostPhoneNumber : Option String
  displayLocationPublicly : Option Bool
  phone : Option String
  hostDefault : Option String
  deriving Repr, DecidableEq

/-- A parsed custom input (opaque pass-through data). -/
structure CustomInputParsed where
  id : Int
  label : String
  deriving Repr, DecidableEq

/-- A booking-field descriptor; only its name is read by this page. -/
structure BookingField where
  name : String
  deriving Repr, DecidableEq

/-- The FormValues draft type of the page, field for field in source
order.  UI-only fields (seatsPerTimeSlotEnabled,
minimumBookingNoticeInDurationType, periodDates, bookerLayouts,
availability) are included; the submit handlers decide which of them
reach the payload. -/
structure FormValues where
  title : String
  eventTitle : String
  eventName : String
  slug : String
  length : Int
  offsetStart : Int
  description : String
  disableGuests : Bool
  requiresConfirmation : Bool
  recurringEvent : Option RecurringEvent
  schedulingType : Option String
  hidden : Bool
  hideCalendarNotes : Bool
  hashedLink : Option String
  locations : List LocationValue
  customInputs : List CustomInputParsed
  schedule : Option Int
  periodType : String
  periodDays : Int
  periodCountCalendarDays : String
  periodDates : PeriodDatePair
  seatsPerTimeSlot : Option Int
  seatsShowAttendees : Option Bool
  seatsPerTimeSlotEnabled : Bool
  minimumBookingNotice : Int
  minimumBookingNoticeInDurationType : Int
  beforeBufferTime : Int
  afterBufferTime : Int
  slotInterval : Option Int
  metadata : Option EventTypeMetaData
  destinationCalendar : DestinationCalendar
  successRedirectUrl : String
  durationLimits : Option IntervalLimit
  bookingLimits : Option IntervalLimit
  children : List ChildrenEventType
  hosts : List Host
  bookingFields : List BookingField
  availability : Option Int
  bookerLayouts : BookerLayoutSettings
  deriving Repr, DecidableEq

/-- JavaScript truthiness of a number: zero is falsy. -/
def jsTruthyInt (n : Int) : Bool := n != 0

/-- JavaScript truthiness of a nullable number: null and zero are
falsy. -/
def jsTruthyOptInt (o : Option Int) : Bool :=
  match o with
  | none => false
  | some n => n != 0

/-- The present bounds of an interval limit map, listed from the
narrowest unit to the broadest. -/
def limitSeq (l : IntervalLimit) : List Int :=
  [l.perDay, l.perWeek, l.perMonth, l.perYear].filterMap id

/-- Modelled from the spec: validateIntervalLimitOrder is imported from
the calcom lib package and its implementation is not under src.  Spec
section 3: every narrower time unit must have a bound at most the bound
of any broader unit it is nested under; absent units are skipped.  The
map is valid when the present bounds, from narrowest to broadest, are
pairwise ordered. -/
def validateIntervalLimitOrder (l : IntervalLimit) : Bool :=
  decide (List.Pairwise (fun a b => a ≤ b) (limitSeq l))

/-- Modelled from the spec: validateBookerLayouts is imported from the
calcom lib package and its implementation is not under src.  Spec
section 4.2: validate the layout-settings structure inside metadata
against its allowed shape, failure kind InvalidLayoutConfig.  Null
settings are valid; otherwise at least one layout must be enabled and
the default layout must be among the enabled ones.  An error key is
returned on failure, as in the source function. -/
def validateBookerLayouts (settings : Option BookerLayoutSettings) : Option String :=
  match settings with
  | none => none
  | some s =>
    if s.enabledLayouts.isEmpty then some "bookerlayout_error_min_one_enabled"
    else if !(s.enabledLayouts.contains s.defaultLayoutType) then
      some "bookerlayout_error_default_not_enabled"
    else none

/-- The distinct local validation errors a submit handler can throw,
one per throw site. -/
inductive SubmitError where
  | bookingLimitOrder
  | durationLimitOrder
  | invalidLayout
  | emptyDurationSet
  | defaultDurationNotInSet
  | seatsPaymentConflict
  deriving Repr, DecidableEq

/-- The expression metadata?.bookerLayouts with null propagation. -/
def metaBookerLayouts (m : Option EventTypeMetaData) : Option BookerLayoutSettings :=
  m.bind fun md => md.bookerLayouts

/-- The expression metadata?.multipleDuration with null propagation. -/
def metaMultipleDuration (m : Option EventTypeMetaData) : Option (List Int) :=
  m.bind fun md => md.multipleDuration

/-- The expression metadata?.apps?.stripe?.paymentOption with null
propagation. -/
def stripePaymentOption (m : Option EventTypeMetaData) : Option String :=
  ((m.bind fun md => md.apps).bind fun a => a.stripe).bind fun s => s.paymentOption

/-- Guard of the first throw of handleSubmit: bookingLimits is present
and validateIntervalLimitOrder rejects it. -/
def bookingLimitsInvalid (v : FormValues) : Bool :=
  match v.bookingLimits with
  | some bl => !(validateIntervalLimitOrder bl)
  | none => false

/-- Guard of the second throw of handleSubmit: durationLimits is
present and validateIntervalLimitOrder rejects it. -/
def durationLimitsInvalid (v : FormValues) : Bool :=
  match v.durationLimits with
  | some dl => !(validateIntervalLimitOrder dl)
  | none => false

/-- Guard of the third throw of handleSubmit: validateBookerLayouts
returns an error key for metadata?.bookerLayouts or null. -/
def layoutsInvalid (v : FormValues) : Bool :=
  (validateBookerLayouts (metaBookerLayouts v.metadata)).isSome

/-- Guard of the fourth throw: multipleDuration is defined and its
length is below one. -/
def multipleDurationEmpty (v : FormValues) : Bool :=
  match metaMultipleDuration v.metadata with
  | some md => decide (md.length < 1)
  | none => false

/-- Guard of the fifth throw, transcribed literally from the source:
multipleDuration is defined, its length is at least one, and
the condition (not input.length) and (not includes input.length)
holds.  Note the conjunction with (not input.length): the branch can
only fire when the drafted default duration is zero. -/
def multipleDurationDefaultMissing (v : FormValues) : Bool :=
  match metaMultipleDuration v.metadata with
  | some md =>
    !(decide (md.length < 1)) && (!(jsTruthyInt v.length) && !(md.contains v.length))
  | none => false

/-- Guard of the sixth throw of handleSubmit: the stripe payment option
equals HOLD and seatsPerTimeSlot is truthy. -/
def seatsHoldConflict (v : FormValues) : Bool :=
  (stripePaymentOption v.metadata == some "HOLD") && jsTruthyOptInt v.seatsPerTimeSlot

/-- The argument object of updateMutation.mutate in the named
handleSubmit: the rest fields of the destructuring, the re-added
destructured fields, the reshaped period fields and the record id. -/
structure UpdatePayload where
  title : String
  eventTitle : String
  eventName : String
  slug : String
  length : Int
  offsetStart : Int
  description : String
  disableGuests : Bool
  requiresConfirmation : Bool
  schedulingType : Option String
  hidden : Bool
  hideCalendarNotes : Bool
  hashedLink : Option String
  schedule : Option Int
  periodType : String
  periodDays : Int
  minimumBookingNotice : Int
  destinationCalendar : DestinationCalendar
  successRedirectUrl : String
  hosts : List Host
  bookingFields : List BookingField
  availability : Option Int
  slotInterval : Option Int
  locations : List LocationValue
  recurringEvent : Option RecurringEvent
  periodStartDate : Int
  periodEndDate : Int
  periodCountCalendarDays : Bool
  id : Int
  beforeEventBuffer : Int
  afterEventBuffer : Int
  bookingLimits : Option IntervalLimit
  durationLimits : Option IntervalLimit
  seatsPerTimeSlot : Option Int
  seatsShowAttendees : Option Bool
  metadata : Option EventTypeMetaData
  customInputs : List CustomInputParsed
  children : List ChildrenEventType
  deriving Repr, DecidableEq

/-- The mutate argument built by the named handleSubmit from the draft
and the record id. -/
def mkMainPayload (id : Int) (v : FormValues) : UpdatePayload :=
  { title := v.title
    eventTitle := v.eventTitle
    eventName := v.eventName
    slug := v.slug
    length := v.length
    offsetStart := v.offsetStart
    description := v.description
    disableGuests := v.disableGuests
    requiresConfirmation := v.requiresConfirmation
    schedulingType := v.schedulingType
    hidden := v.hidden
    hideCalendarNotes := v.hideCalendarNotes
    hashedLink := v.hashedLink
    schedule := v.schedule
    periodType := v.periodType
    periodDays := v.periodDays
    minimumBookingNotice := v.minimumBookingNotice
    destinationCalendar := v.destinationCalendar
    successRedirectUrl := v.successRedirectUrl
    hosts := v.hosts
    bookingFields := v.bookingFields
    availability := v.availability
    slotInterval := v.slotInterval
    locations := v.locations
    recurringEvent := v.recurringEvent
    periodStartDate := v.periodDates.startDate
    periodEndDate := v.periodDates.endDate
    periodCountCalendarDays := v.periodCountCalendarDays == "1"
    id := id
    beforeEventBuffer := v.beforeBufferTime
    afterEventBuffer := v.afterBufferTime
    bookingLimits := v.bookingLimits
    durationLimits := v.durationLimits
    seatsPerTimeSlot := v.seatsPerTimeSlot
    seatsShowAttendees := v.seatsShowAttendees
    metadata := v.metadata
    customInputs := v.customInputs
    children := v.children }

/-- The argument object of updateMutation.mutate in the inline Form
handleSubmit: the inline destructuring keeps
minimumBookingNoticeInDurationType and bookerLayouts inside the rest
object, so both are spread into the payload in addition to the shared
fields. -/
structure InlineUpdatePayload where
  shared : UpdatePayload
  minimumBookingNoticeInDurationType : Int
  bookerLayouts : BookerLayoutSettings
  deriving Repr, DecidableEq

/-- The mutate argument built by the inline Form handleSubmit, written
out field for field from the inline source. -/
def mkInlinePayload (id : Int) (v : FormValues) : InlineUpdatePayload :=
  { shared :=
    { title := v.title
      eventTitle := v.eventTitle
      eventName := v.eventName
      slug := v.slug
      length := v.length
      offsetStart := v.offsetStart
      description := v.description
      disableGuests := v.disableGuests
      requiresConfirmation := v.requiresConfirmation
      schedulingType := v.schedulingType
      hidden := v.hidden
      hideCalendarNotes := v.hideCalendarNotes
      hashedLink := v.hashedLink
      schedule := v.schedule
      periodType := v.periodType
      periodDays := v.periodDays
      minimumBookingNotice := v.minimumBookingNotice
      destinationCalendar := v.destinationCalendar
      successRedirectUrl := v.successRedirectUrl
      hosts := v.hosts
      bookingFields := v.bookingFields
      availability := v.availability
      slotInterval := v.slotInterval
      locations := v.locations
      recurringEvent := v.recurringEvent
      periodStartDate := v.periodDates.startDate
      periodEndDate := v.periodDates.endDate
      periodCountCalendarDays := v.periodCountCalendarDays == "1"
      id := id
      beforeEventBuffer := v.beforeBufferTime
      afterEventBuffer := v.afterBufferTime
      bookingLimits := v.bookingLimits
      durationLimits := v.durationLimits
      seatsPerTimeSlot := v.seatsPerTimeSlot
      seatsShowAttendees := v.seatsShowAttendees
      metadata := v.metadata
      customInputs := v.customInputs
      children := v.children }
    minimumBookingNoticeInDurationType := v.minimumBookingNoticeInDurationType
    bookerLayouts := v.bookerLayouts }

/-- The named handleSubmit (source lines 324 to 393), as called from
the dialog confirmation: the guards in source order, each throw mapped
to its error, the final mutate call mapped to ok. -/
def handleSubmitMain (id : Int) (v : FormValues) : Except SubmitError UpdatePayload :=
  if bookingLimitsInvalid v then Except.error SubmitError.bookingLimitOrder
  else if durationLimitsInvalid v then Except.error SubmitError.durationLimitOrder
  else if layoutsInvalid v then Except.error SubmitError.invalidLayout
  else if multipleDurationEmpty v then Except.error SubmitError.emptyDurationSet
  else if multipleDurationDefaultMissing v then Except.error SubmitError.defaultDurationNotInSet
  else if seatsHoldConflict v then Except.error SubmitError.seatsPaymentConflict
  else Except.ok (mkMainPayload id v)

/-- Guard transcribed from the inline Form handleSubmit, first throw. -/
def inlineBookingLimitsInvalid (v : FormValues) : Bool :=
  match v.bookingLimits with
  | some bl => !(validateIntervalLimitOrder bl)
  | none => false

/-- Guard transcribed from the inline Form handleSubmit, second throw. -/
def inlineDurationLimitsInvalid (v : FormValues) : Bool :=
  match v.durationLimits with
  | some dl => !(validateIntervalLimitOrder dl)
  | none => false

/-- Guard transcribed from the inline Form handleSubmit, third throw. -/
def inlineLayoutsInvalid (v : FormValues) : Bool :=
  (validateBookerLayouts (metaBookerLayouts v.metadata)).isSome

/-- Guard transcribed from the inline Form handleSubmit, fourth throw. -/
def inlineMultipleDurationEmpty (v : FormValues) : Bool :=
  match metaMultipleDuration v.metadata with
  | some md => decide (md.length < 1)
  | none => false

/-- Guard transcribed from the inline Form handleSubmit, fifth throw. -/
def inlineMultipleDurationDefaultMissing (v : FormValues) : Bool :=
  match metaMultipleDuration v.metadata with
  | some md =>
    !(decide (md.length < 1)) && (!(jsTruthyInt v.length) && !(md.contains v.length))
  | none => false

/-- The inline Form handleSubmit (source lines 414 to 474): the same
four checks in source order and then the mutate call; the inline path
has no seats and payment-option check. -/
def handleSubmitInline (id : Int) (v : FormValues) : Except SubmitError InlineUpdatePayload :=
  if inlineBookingLimitsInvalid v then Except.error SubmitError.bookingLimitOrder
  else if inlineDurationLimitsInvalid v then Except.error SubmitError.durationLimitOrder
  else if inlineLayoutsInvalid v then Except.error SubmitError.invalidLayout
  else if inlineMultipleDurationEmpty v then Except.error SubmitError.emptyDurationSet
  else if inlineMultipleDurationDefaultMissing v then Except.error SubmitError.defaultDurationNotInSet
  else Except.ok (mkInlinePayload id v)

/-- Step one of the validation sequence as an optional error. -/
def checkBookingLimits (v : FormValues) : Option SubmitError :=
  if bookingLimitsInvalid v then some SubmitError.bookingLimitOrder else none

/-- Step two of the validation sequence as an optional error. -/
def checkDurationLimits (v : FormValues) : Option SubmitError :=
  if durationLimitsInvalid v then some SubmitError.durationLimitOrder else none

/-- Step three of the validation sequence as an optional error. -/
def checkLayouts (v : FormValues) : Option SubmitError :=
  if layoutsInvalid v then some SubmitError.invalidLayout else none

/-- Step four of the validation sequence as an optional error: the two
multiple-duration throws of the source. -/
def checkMultipleDuration (v : FormValues) : Option SubmitError :=
  if multipleDurationEmpty v then some SubmitError.emptyDurationSet
  else if multipleDurationDefaultMissing v then some SubmitError.defaultDurationNotInSet
  else none

/-- Step five of the validation sequence as an optional error. -/
def checkSeatsPayment (v : FormValues) : Option SubmitError :=
  if seatsHoldConflict v then some SubmitError.seatsPaymentConflict else none

/-- First error of the four checks shared by both submit paths. -/
def checksFour (v : FormValues) : Option SubmitError :=
  match checkBookingLimits v with
  | some e => some e
  | none =>
    match checkDurationLimits v with
    | some e => some e
    | none =>
      match checkLayouts v with
      | some e => some e
      | none => checkMultipleDuration v

/-- First error of the full ordered validation sequence of the named
handleSubmit. -/
def firstError (v : FormValues) : Option SubmitError :=
  match checksFour v with
  | some e => some e
  | none => checkSeatsPayment v

/-- The fetched record fields read by the metadata initialization. -/
structure EventTypeRecord where
  metadata : Option EventTypeMetaData
  schedule : Option Int
  deriving Repr, DecidableEq

/-- The metadata initialization of EventTypePage (source lines 191 to
204): for a team record with non-null metadata the config key
useHostSchedulesForTeamEvent is set, either to the explicit value
compared with true, or to the truthiness of the schedule; otherwise the
key is deleted. -/
def initializeMetadata (teamPresent : Bool) (r : EventTypeRecord) : Option EventTypeMetaData :=
  match teamPresent, r.metadata with
  | true, some m =>
    let explicitVal : Option Bool := m.config.bind fun c => c.useHostSchedulesForTeamEvent
    let newVal : Bool :=
      match explicitVal with
      | some b => b == true
      | none => jsTruthyOptInt r.schedule
    some { m with config := some { useHostSchedulesForTeamEvent := some newVal } }
  | _, _ =>
    r.metadata.map fun m =>
      { m with config := m.config.map fun c =>
        { c with useHostSchedulesForTeamEvent := none } }

/-- The value of metadata?.config?.useHostSchedulesForTeamEvent; none
means the key is absent. -/
def useHostValue (m : Option EventTypeMetaData) : Option Bool :=
  (m.bind fun md => md.config).bind fun c => c.useHostSchedulesForTeamEvent

/-- The field names of FormValues in source order. -/
def formValuesKeys : List String :=
  ["title", "eventTitle", "eventName", "slug", "length", "offsetStart",
   "description", "disableGuests", "requiresConfirmation", "recurringEvent",
   "schedulingType", "hidden", "hideCalendarNotes", "hashedLink", "locations",
   "customInputs", "schedule", "periodType", "periodDays",
   "periodCountCalendarDays", "periodDates", "seatsPerTimeSlot",
   "seatsShowAttendees", "seatsPerTimeSlotEnabled", "minimumBookingNotice",
   "minimumBookingNoticeInDurationType", "beforeBufferTime", "afterBufferTime",
   "slotInterval", "metadata", "destinationCalendar", "successRedirectUrl",
   "durationLimits", "bookingLimits", "children", "hosts", "bookingFields",
   "availability", "bookerLayouts"]

/-- The field names destructured out of the draft by the named
handleSubmit (everything not in the rest object). -/
def mainDestructuredKeys : List String :=
  ["periodDates", "periodCountCalendarDays", "beforeBufferTime",
   "afterBufferTime", "seatsPerTimeSlot", "seatsShowAttendees",
   "bookingLimits", "durationLimits", "recurringEvent", "locations",
   "metadata", "customInputs", "children", "seatsPerTimeSlotEnabled",
   "minimumBookingNoticeInDurationType", "bookerLayouts"]

/-- The keys written explicitly in the mutate argument of the named
handleSubmit, after the rest spread. -/
def mainExplicitKeys : List String :=
  ["locations", "recurringEvent", "periodStartDate", "periodEndDate",
   "periodCountCalendarDays", "id", "beforeEventBuffer", "afterEventBuffer",
   "bookingLimits", "durationLimits", "seatsPerTimeSlot",
   "seatsShowAttendees", "metadata", "customInputs", "children"]

/-- The key set of the mutate argument of the named handleSubmit: the
rest keys of the draft plus the explicitly written keys. -/
def mainPayloadKeys : List String :=
  (formValuesKeys.filter fun k => !(mainDestructuredKeys.contains k)) ++ mainExplicitKeys

/-- The field names destructured out of the draft by the inline Form
handleSubmit; children, minimumBookingNoticeInDurationType and
bookerLayouts stay in the rest object. -/
def inlineDestructuredKeys : List String :=
  ["periodDates", "periodCountCalendarDays", "beforeBufferTime",
   "afterBufferTime", "seatsPerTimeSlot", "seatsShowAttendees",
   "bookingLimits", "durationLimits", "recurringEvent", "locations",
   "metadata", "customInputs", "seatsPerTimeSlotEnabled"]

/-- The keys written explicitly in the mutate argument of the inline
Form handleSubmit. -/
def inlineExplicitKeys : List String :=
  ["locations", "recurringEvent", "periodStartDate", "periodEndDate",
   "periodCountCalendarDays", "id", "beforeEventBuffer", "afterEventBuffer",
   "bookingLimits", "durationLimits", "seatsPerTimeSlot",
   "seatsShowAttendees", "metadata", "customInputs"]

/-- The key set of the mutate argument of the inline Form
handleSubmit. -/
def inlinePayloadKeys : List String :=
  (formValuesKeys.filter fun k => !(inlineDestructuredKeys.contains k)) ++ inlineExplicitKeys

/-- The tab enumeration of querySchema. -/
inductive TabName where
  | setup
  | availability
  | apps
  | limits
  | recurring
  | team
  | advanced
  | workflows
  | webhooks
  deriving Repr, DecidableEq

/-- The querySchema parse of the tabName query parameter: an absent
parameter defaults to setup, a listed name parses to its tab, any
other string is rejected. -/
def parseTabName : Option String → Option TabName
  | none => some TabName.setup
  | some "setup" => some TabName.setup
  | some "availability" => some TabName.availability
  | some "apps" => some TabName.apps
  | some "limits" => some TabName.limits
  | some "recurring" => some TabName.recurring
  | some "team" => some TabName.team
  | some "advanced" => some TabName.advanced
  | some "workflows" => some TabName.workflows
  | some "webhooks" => some TabName.webhooks
  | some _ => none

/-- The tabMap lookup: the identity of the view component rendered for
each tab. -/
def tabMap : TabName → String
  | TabName.setup => "EventSetupTab"
  | TabName.availability => "EventAvailabilityTab"
  | TabName.team => "EventTeamTab"
  | TabName.limits => "EventLimitsTab"
  | TabName.advanced => "EventAdvancedTab"
  | TabName.recurring => "EventRecurringTab"
  | TabName.apps => "EventAppsTab"
  | TabName.workflows => "EventWorkflowsTab"
  | TabName.webhooks => "EventWebhooksTab"

/-- Selecting a tab: the page state is the current tab, the rendered
view is the tabMap lookup; no other state is touched. -/
def selectTab (_current : TabName) (t : TabName) : TabName × String :=
  (t, tabMap t)

/-- Modelled from the spec: the code that fills
slugExistsChildrenDialogOpen is not under src (only the state and the
dialog are).  Spec section 4.3: the dialog opens when the chosen slug
collides with a sibling slug among the owners of the child event
types; the colliding children are collected. -/
def collidingChildren (slug : String) (children : List ChildrenEventType) : List ChildrenEventType :=
  children.filter fun ch => ch.owner.eventTypeSlugs.contains slug

/-- The open condition of the dialog (source line 479): the collision
list is non-empty. -/
def slugDialogOpen (collisions : List ChildrenEventType) : Bool :=
  decide (collisions.length > 0)

/-- The names interpolation of the dialog text (source lines 504 to
509): all owner names but the last joined with commas, the localized
and-word when more than one child collides, then the last owner
name. -/
def dialogNames (collisions : List ChildrenEventType) (andWord : String) : String :=
  let names := collisions.map fun ch => ch.owner.name
  String.intercalate ", " names.dropLast ++ " " ++
    (if collisions.length > 1 then andWord else "") ++ " " ++
    String.intercalate "," (names.drop (names.length - 1))

/-- Character-list substring test: sub occurs somewhere in the list. -/
def charsHasSub (sub : List Char) : List Char → Bool
  | [] => sub.isEmpty
  | c :: t => sub.isPrefixOf (c :: t) || charsHasSub sub t

/-- Substring test used to state that the dialog text includes an
owner name. -/
def containsName (s sub : String) : Bool :=
  charsHasSub sub.data s.data

/-- The user-visible effects wired to the dialog buttons. -/
inductive UIAction where
  | preventDefault
  | callHandleSubmit
  | telemetrySlugReplacement
  | closeDialog
  deriving Repr, DecidableEq

/-- The onConfirm handler of the dialog (source lines 494 to 499):
prevent default, one call of handleSubmit on the current draft, the
telemetry event, close the dialog. -/
def onConfirmActions : List UIAction :=
  [UIAction.preventDefault, UIAction.callHandleSubmit,
   UIAction.telemetrySlugReplacement, UIAction.closeDialog]

/-- Cancelling the dialog (onOpenChange, source lines 480 to 482):
the open list is reset to empty; no submit happens. -/
def onCancelActions : List UIAction :=
  [UIAction.closeDialog]

/- Concrete drafts used by witnesses and counterexamples. -/

/-- A draft that passes every validation check: no limit maps, no
metadata, no seats. -/
def baseDraft : FormValues :=
  { title := "Quick chat"
    eventTitle := ""
    eventName := ""
    slug := "quick-chat"
    length := 30
    offsetStart := 0
    description := ""
    disableGuests := false
    requiresConfirmation := false
    recurringEvent := none
    schedulingType := none
    hidden := false
    hideCalendarNotes := false
    hashedLink := none
    locations := []
    customInputs := []
    schedule := some 4
    periodType := "UNLIMITED"
    periodDays := 30
    periodCountCalendarDays := "0"
    periodDates := { startDate := 1700000000, endDate := 1700600000 }
    seatsPerTimeSlot := none
    seatsShowAttendees := none
    seatsPerTimeSlotEnabled := false
    minimumBookingNotice := 120
    minimumBookingNoticeInDurationType := 2
    beforeBufferTime := 0
    afterBufferTime := 0
    slotInterval := none
    metadata := none
    destinationCalendar := { integration := "google_calendar", externalId := "cal-1" }
    successRedirectUrl := ""
    durationLimits := none
    bookingLimits := none
    children := []
    hosts := []
    bookingFields := []
    availability := none
    bookerLayouts := { enabledLayouts := ["month_view"], defaultLayoutType := "month_view" } }

/-- Metadata whose stripe payment option is HOLD. -/
def stripeHoldMeta : EventTypeMetaData :=
  { config := none
    apps := some { stripe := some { paymentOption := some "HOLD" } }
    multipleDuration := none
    bookerLayouts := none }

/-- Metadata with a given multipleDuration list. -/
def multiDurMeta (md : List Int) : EventTypeMetaData :=
  { config := none
    apps := none
    multipleDuration := some md
    bookerLayouts := none }

/-- Draft with an empty multipleDuration list. -/
def vEmptyMD : FormValues := { baseDraft with metadata := some (multiDurMeta []) }

/-- Draft with multipleDuration fifteen and sixty but default duration
thirty. -/
def vMD30 : FormValues :=
  { baseDraft with metadata := some (multiDurMeta [15, 60]), length := 30 }

/-- Draft with five seats per slot and the HOLD payment option. -/
def vHold5 : FormValues :=
  { baseDraft with seatsPerTimeSlot := some 5, metadata := some stripeHoldMeta }

/-- Draft with seven seats per slot and the HOLD payment option. -/
def vHold7 : FormValues :=
  { baseDraft with seatsPerTimeSlot := some 7, metadata := some stripeHoldMeta }

/-- Draft with seat count minus one and the HOLD payment option. -/
def vHoldNeg : FormValues :=
  { baseDraft with seatsPerTimeSlot := some (-1), metadata := some stripeHoldMeta }

/-- Draft with seat count zero and the HOLD payment option. -/
def vHoldZero : FormValues :=
  { baseDraft with seatsPerTimeSlot := some 0, metadata := some stripeHoldMeta }

/-- A booking-limit map whose day bound exceeds its week bound. -/
def violLimits : IntervalLimit :=
  { perDay := some 5, perWeek := some 2, perMonth := none, perYear := none }

/-- Draft carrying the mis-ordered booking-limit map. -/
def vLimits : FormValues := { baseDraft with bookingLimits := some violLimits }

/-- A child event type owned by Alice whose owner already has a
sibling slug named meeting. -/
def aliceChild : ChildrenEventType :=
  { slug := "alice-meeting"
    owner := { id := 101, name := "Alice", eventTypeSlugs := ["meeting"] }
    created := true }

/- Helper lemmas shared by several claim proofs. -/

/-- The inline guard of the first throw equals the main guard. -/
theorem inlineBooking_eq (v : FormValues) :
    inlineBookingLimitsInvalid v = bookingLimitsInvalid v := rfl

/-- The inline guard of the second throw equals the main guard. -/
theorem inlineDuration_eq (v : FormValues) :
    inlineDurationLimitsInvalid v = durationLimitsInvalid v := rfl

/-- The inline guard of the third throw equals the main guard. -/
theorem inlineLayouts_eq (v : FormValues) :
    inlineLayoutsInvalid v = layoutsInvalid v := rfl

/-- The inline guard of the fourth throw equals the main guard. -/
theorem inlineMDEmpty_eq (v : FormValues) :
    inlineMultipleDurationEmpty v = multipleDurationEmpty v := rfl

/-- The inline guard of the fifth throw equals the main guard. -/
theorem inlineMDDefault_eq (v : FormValues) :
    inlineMultipleDurationDefaultMissing v = multipleDurationDefaultMissing v := rfl

/-- The shared four checks pass exactly when all five guard booleans of
the first four steps are false. -/
theorem checksFour_none_iff (v : FormValues) :
    checksFour v = none ↔
      (bookingLimitsInvalid v = false ∧ durationLimitsInvalid v = false ∧
       layoutsInvalid v = false ∧ multipleDurationEmpty v = false ∧
       multipleDurationDefaultMissing v = false) := by
  unfold checksFour checkBookingLimits checkDurationLimits checkLayouts checkMultipleDuration
  by_cases h1 : bookingLimitsInvalid v <;>
  by_cases h2 : durationLimitsInvalid v <;>
  by_cases h3 : layoutsInvalid v <;>
  by_cases h4 : multipleDurationEmpty v <;>
  by_cases h5 : multipleDurationDefaultMissing v <;>
  simp [h1, h2, h3, h4, h5]

/-- A limit map with a narrower unit bound strictly above a broader
unit bound, both present. -/
def hasOrderViolation (l : IntervalLimit) : Prop :=
  ∃ i j : Nat, ∃ a b : Int,
    i < j ∧ (limitSeq l)[i]? = some a ∧ (limitSeq l)[j]? = some b ∧ b < a

/-- An order violation makes validateIntervalLimitOrder reject the
map. -/
theorem violation_breaks_order (l : IntervalLimit) (h : hasOrderViolation l) :
    validateIntervalLimitOrder l = false := by
  cases hvb : validateIntervalLimitOrder l with
  | false => rfl
  | true =>
    exfalso
    unfold validateIntervalLimitOrder at hvb
    have hp : List.Pairwise (fun a b => a ≤ b) (limitSeq l) := of_decide_eq_true hvb
    rw [List.pairwise_iff_getElem] at hp
    obtain ⟨i, j, a, b, hij, ha, hb, hba⟩ := h
    obtain ⟨hi, hia⟩ := List.getElem?_eq_some_iff.mp ha
    obtain ⟨hj, hjb⟩ := List.getElem?_eq_some_iff.mp hb
    have hle := hp i j hi hj hij
    rw [hia, hjb] at hle
    omega

/- Claim theorems. -/

/-- C1.  The empty-list half behaves as claimed: an empty
multipleDuration list aborts both submit paths with EmptyDurationSet.
The second half is a code bug: the guard of the default-duration throw
is conjoined with the falsiness of input.length, so a draft whose
default duration thirty is missing from the non-empty list fifteen,
sixty passes validation and the mutation is invoked on both paths,
against the claimed DefaultDurationNotInSet failure. -/
theorem multiple_duration_guard_dead :
    handleSubmitMain 5 vEmptyMD = Except.error SubmitError.emptyDurationSet ∧
    handleSubmitInline 5 vEmptyMD = Except.error SubmitError.emptyDurationSet ∧
    vMD30.length = 30 ∧
    metaMultipleDuration vMD30.metadata = some [15, 60] ∧
    (30 : Int) ∉ ([15, 60] : List Int) ∧
    handleSubmitMain 5 vMD30 = Except.ok (mkMainPayload 5 vMD30) ∧
    handleSubmitInline 5 vMD30 = Except.ok (mkInlinePayload 5 vMD30) := by
  refine ⟨rfl, rfl, rfl, rfl, by decide, rfl, rfl⟩

/-- C2.  A limit map assigning a narrower unit a bound strictly above
the bound of a broader unit makes submission fail with one of the two
limit-order errors, on both submit paths, so the mutation is never
invoked. -/
theorem limit_order_violation_blocks_submit (id : Int) (v : FormValues)
    (h : (∃ bl, v.bookingLimits = some bl ∧ hasOrderViolation bl) ∨
         (∃ dl, v.durationLimits = some dl ∧ hasOrderViolation dl)) :
    (∃ e, handleSubmitMain id v = Except.error e ∧
      (e = SubmitError.bookingLimitOrder ∨ e = SubmitError.durationLimitOrder)) ∧
    (∃ e, handleSubmitInline id v = Except.error e ∧
      (e = SubmitError.bookingLimitOrder ∨ e = SubmitError.durationLimitOrder)) := by
  rcases h with ⟨bl, hbl, hviol⟩ | ⟨dl, hdl, hviol⟩
  · have hb : bookingLimitsInvalid v = true := by
      unfold bookingLimitsInvalid
      rw [hbl]
      simp [violation_breaks_order bl hviol]
    constructor
    · exact ⟨SubmitError.bookingLimitOrder, by unfold handleSubmitMain; simp [hb], Or.inl rfl⟩
    · exact ⟨SubmitError.bookingLimitOrder,
        by unfold handleSubmitInline; rw [inlineBooking_eq]; simp [hb], Or.inl rfl⟩
  · have hd : durationLimitsInvalid v = true := by
      unfold durationLimitsInvalid
      rw [hdl]
      simp [violation_breaks_order dl hviol]
    by_cases hb : bookingLimitsInvalid v
    · constructor
      · exact ⟨SubmitError.bookingLimitOrder, by unfold handleSubmitMain; simp [hb], Or.inl rfl⟩
      · exact ⟨SubmitError.bookingLimitOrder,
          by unfold handleSubmitInline; rw [inlineBooking_eq]; simp [hb], Or.inl rfl⟩
    · constructor
      · exact ⟨SubmitError.durationLimitOrder,
          by unfold handleSubmitMain; simp [hb, hd], Or.inr rfl⟩
      · exact ⟨SubmitError.durationLimitOrder,
          by unfold handleSubmitInline; rw [inlineBooking_eq, inlineDuration_eq];
             simp [hb, hd], Or.inr rfl⟩

/-- C2 witness: a booking-limit map with day bound five above week
bound two blocks both submit paths. -/
theorem limit_order_violation_blocks_submit_witness :
    (∃ e, handleSubmitMain 7 vLimits = Except.error e ∧
      (e = SubmitError.bookingLimitOrder ∨ e = SubmitError.durationLimitOrder)) ∧
    (∃ e, handleSubmitInline 7 vLimits = Except.error e ∧
      (e = SubmitError.bookingLimitOrder ∨ e = SubmitError.durationLimitOrder)) :=
  limit_order_violation_blocks_submit 7 vLimits
    (Or.inl ⟨violLimits, rfl, 0, 1, 5, 2, by decide, rfl, rfl, by decide⟩)

/-- C3 counterexample: the draft with five seats per slot and the HOLD
stripe payment option is accepted by the inline Form submit path, whose
mutate call is reached, so the claim that such a submission is always
rejected before the mutation is false. -/
theorem inline_path_skips_seats_hold_check :
    vHold5.seatsPerTimeSlot = some 5 ∧
    stripePaymentOption vHold5.metadata = some "HOLD" ∧
    handleSubmitInline 1 vHold5 = Except.ok (mkInlinePayload 1 vHold5) :=
  ⟨rfl, rfl, rfl⟩

/-- C3 amended: on the named handleSubmit path (the one the dialog
confirmation runs), a draft with truthy seatsPerTimeSlot and the HOLD
stripe payment option that passes the four earlier checks is rejected
with the seats and payment conflict error, so the mutation is not
invoked there. -/
theorem seats_hold_conflict_main_path (id : Int) (v : FormValues)
    (h4 : checksFour v = none)
    (hold : stripePaymentOption v.metadata = some "HOLD")
    (hseats : jsTruthyOptInt v.seatsPerTimeSlot = true) :
    handleSubmitMain id v = Except.error SubmitError.seatsPaymentConflict := by
  obtain ⟨h1, h2, h3, h4a, h5⟩ := (checksFour_none_iff v).mp h4
  have h6 : seatsHoldConflict v = true := by
    unfold seatsHoldConflict
    rw [hold, hseats]
    simp
  unfold handleSubmitMain
  simp [h1, h2, h3, h4a, h5, h6]

/-- C3 witness: the five-seat HOLD draft passes the four earlier checks
and the named handleSubmit rejects it with the conflict error. -/
theorem seats_hold_conflict_main_path_witness :
    checksFour vHold5 = none ∧
    handleSubmitMain 1 vHold5 = Except.error SubmitError.seatsPaymentConflict :=
  ⟨rfl, seats_hold_conflict_main_path 1 vHold5 rfl rfl rfl⟩

/-- C4 counterexample: the two submit paths are not equivalent.  On the
seven-seat HOLD draft the named handleSubmit rejects while the inline
path reaches its mutate call, and the inline payload key set contains
the UI-only keys minimumBookingNoticeInDurationType and bookerLayouts
that the named path strips. -/
theorem submit_paths_diverge :
    handleSubmitMain 2 vHold7 = Except.error SubmitError.seatsPaymentConflict ∧
    handleSubmitInline 2 vHold7 = Except.ok (mkInlinePayload 2 vHold7) ∧
    "minimumBookingNoticeInDurationType" ∈ inlinePayloadKeys ∧
    "minimumBookingNoticeInDurationType" ∉ mainPayloadKeys ∧
    "bookerLayouts" ∈ inlinePayloadKeys ∧
    "bookerLayouts" ∉ mainPayloadKeys := by
  refine ⟨rfl, rfl, by decide, by decide, by decide, by decide⟩

/-- C4 amended: the inline path runs the same first four checks in the
same order and differs from the named path exactly in the missing
seats and payment check; on drafts both accept, the payloads agree on
every shared field, the inline payload additionally carrying the two
UI-only fields, which are also the only difference between the two key
sets. -/
theorem submit_paths_relation (id : Int) (v : FormValues) :
    (handleSubmitInline id v =
      (match handleSubmitMain id v with
       | Except.error SubmitError.seatsPaymentConflict =>
         Except.ok (mkInlinePayload id v)
       | Except.error e => Except.error e
       | Except.ok _ => Except.ok (mkInlinePayload id v))) ∧
    (mkInlinePayload id v).shared = mkMainPayload id v ∧
    (inlinePayloadKeys.all fun k =>
      mainPayloadKeys.contains k || k == "minimumBookingNoticeInDurationType" ||
        k == "bookerLayouts") = true ∧
    (mainPayloadKeys.all fun k => inlinePayloadKeys.contains k) = true ∧
    "minimumBookingNoticeInDurationType" ∉ mainPayloadKeys ∧
    "bookerLayouts" ∉ mainPayloadKeys := by
  refine ⟨?_, rfl, by decide, by decide, by decide, by decide⟩
  unfold handleSubmitInline handleSubmitMain
  rw [inlineBooking_eq, inlineDuration_eq, inlineLayouts_eq, inlineMDEmpty_eq,
    inlineMDDefault_eq]
  by_cases h1 : bookingLimitsInvalid v <;>
  by_cases h2 : durationLimitsInvalid v <;>
  by_cases h3 : layoutsInvalid v <;>
  by_cases h4 : multipleDurationEmpty v <;>
  by_cases h5 : multipleDurationDefaultMissing v <;>
  by_cases h6 : seatsHoldConflict v <;>
  simp [h1, h2, h3, h4, h5, h6]

/-- C5.  The named handleSubmit aborts at the first failing check of
the ordered validation sequence with exactly that error, and reaches
its mutate call, with the reshaped payload, exactly when no check
fails: a validation error never reaches the transport. -/
theorem validation_first_failure_aborts (id : Int) (v : FormValues) :
    handleSubmitMain id v =
      (match firstError v with
       | some e => Except.error e
       | none => Except.ok (mkMainPayload id v)) := by
  unfold handleSubmitMain firstError checksFour checkBookingLimits checkDurationLimits
    checkLayouts checkMultipleDuration checkSeatsPayment
  by_cases h1 : bookingLimitsInvalid v <;>
  by_cases h2 : durationLimitsInvalid v <;>
  by_cases h3 : layoutsInvalid v <;>
  by_cases h4 : multipleDurationEmpty v <;>
  by_cases h5 : multipleDurationDefaultMissing v <;>
  by_cases h6 : seatsHoldConflict v <;>
  simp [h1, h2, h3, h4, h5, h6]

/-- C6 counterexample: a team record whose metadata is null keeps null
metadata after initialization, so the useHostSchedulesForTeamEvent key
is absent although the record is a team event, refuting the claimed
equivalence between key presence and being a team event. -/
theorem team_null_metadata_key_absent :
    initializeMetadata true { metadata := none, schedule := some 10 } = none ∧
    useHostValue (initializeMetadata true { metadata := none, schedule := some 10 }) = none :=
  ⟨rfl, rfl⟩

/-- C6 amended: after initialization the key is present exactly for a
team record with non-null metadata; its value is the explicit metadata
value when one is set, and otherwise the truthiness of the schedule;
for every other record the key is absent. -/
theorem useHost_initialization (teamPresent : Bool) (r : EventTypeRecord) :
    useHostValue (initializeMetadata teamPresent r) =
      (if teamPresent then
        r.metadata.map fun m =>
          (match m.config.bind fun c => c.useHostSchedulesForTeamEvent with
           | some b => b
           | none => jsTruthyOptInt r.schedule)
       else none) ∧
    (useHostValue (initializeMetadata teamPresent r)).isSome =
      (teamPresent && r.metadata.isSome) := by
  constructor
  · cases teamPresent with
    | false =>
      cases hm : r.metadata with
      | none => simp [initializeMetadata, useHostValue, hm]
      | some m => cases hc : m.config <;> simp [initializeMetadata, useHostValue, hm, hc]
    | true =>
      cases hm : r.metadata with
      | none => simp [initializeMetadata, useHostValue, hm]
      | some m =>
        cases hc : m.config with
        | none => simp [initializeMetadata, useHostValue, hm, hc]
        | some c =>
          cases hu : c.useHostSchedulesForTeamEvent <;>
            simp [initializeMetadata, useHostValue, hm, hc, hu]
  · cases teamPresent with
    | false =>
      cases hm : r.metadata with
      | none => simp [initializeMetadata, useHostValue, hm]
      | some m => cases hc : m.config <;> simp [initializeMetadata, useHostValue, hm, hc]
    | true =>
      cases hm : r.metadata with
      | none => simp [initializeMetadata, useHostValue, hm]
      | some m =>
        cases hc : m.config with
        | none => simp [initializeMetadata, useHostValue, hm, hc]
        | some c =>
          cases hu : c.useHostSchedulesForTeamEvent <;>
            simp [initializeMetadata, useHostValue, hm, hc, hu]

/-- C7.  Whenever the named handleSubmit reaches its mutate call, the
payload carries periodStartDate and periodEndDate taken from the
periodDates pair of the draft and periodCountCalendarDays as the
comparison of the enumeration with the string one, and the payload key
set lacks the two UI-only fields. -/
theorem payload_shape (id : Int) (v : FormValues) (p : UpdatePayload)
    (h : handleSubmitMain id v = Except.ok p) :
    p.periodStartDate = v.periodDates.startDate ∧
    p.periodEndDate = v.periodDates.endDate ∧
    p.periodCountCalendarDays = (v.periodCountCalendarDays == "1") ∧
    "periodStartDate" ∈ mainPayloadKeys ∧
    "periodEndDate" ∈ mainPayloadKeys ∧
    "periodCountCalendarDays" ∈ mainPayloadKeys ∧
    "minimumBookingNoticeInDurationType" ∉ mainPayloadKeys ∧
    "seatsPerTimeSlotEnabled" ∉ mainPayloadKeys := by
  have hp : p = mkMainPayload id v := by
    unfold handleSubmitMain at h
    by_cases h1 : bookingLimitsInvalid v <;>
    by_cases h2 : durationLimitsInvalid v <;>
    by_cases h3 : layoutsInvalid v <;>
    by_cases h4 : multipleDurationEmpty v <;>
    by_cases h5 : multipleDurationDefaultMissing v <;>
    by_cases h6 : seatsHoldConflict v <;>
    simp [h1, h2, h3, h4, h5, h6] at h
    exact h.symm
  subst hp
  refine ⟨rfl, rfl, rfl, by decide, by decide, by decide, by decide, by decide⟩

/-- C7 witness: the all-passing draft reaches the mutate call and its
payload has the claimed shape. -/
theorem payload_shape_witness :
    handleSubmitMain 6 baseDraft = Except.ok (mkMainPayload 6 baseDraft) ∧
    ((mkMainPayload 6 baseDraft).periodStartDate = baseDraft.periodDates.startDate ∧
     (mkMainPayload 6 baseDraft).periodEndDate = baseDraft.periodDates.endDate ∧
     (mkMainPayload 6 baseDraft).periodCountCalendarDays =
       (baseDraft.periodCountCalendarDays == "1") ∧
     "periodStartDate" ∈ mainPayloadKeys ∧
     "periodEndDate" ∈ mainPayloadKeys ∧
     "periodCountCalendarDays" ∈ mainPayloadKeys ∧
     "minimumBookingNoticeInDurationType" ∉ mainPayloadKeys ∧
     "seatsPerTimeSlotEnabled" ∉ mainPayloadKeys) :=
  ⟨rfl, payload_shape 6 baseDraft (mkMainPayload 6 baseDraft) rfl⟩

/-- C8.  With one colliding child owned by Alice, the dialog opens, its
names interpolation evaluates to a text containing Alice (with no
and-word for a single owner), confirming runs exactly one handleSubmit
call and cancelling runs none. -/
theorem slug_collision_dialog :
    slugDialogOpen (collidingChildren "meeting" [aliceChild]) = true ∧
    dialogNames (collidingChildren "meeting" [aliceChild]) "and" = "  Alice" ∧
    containsName (dialogNames (collidingChildren "meeting" [aliceChild]) "and") "Alice" = true ∧
    (collidingChildren "meeting" [aliceChild]).length = 1 ∧
    onConfirmActions.count UIAction.callHandleSubmit = 1 ∧
    onCancelActions.count UIAction.callHandleSubmit = 0 := by
  refine ⟨rfl, by decide, by decide, rfl, by decide, by decide⟩

/-- C9.  The tab selector is a pure lookup: selecting the same tab
twice leaves state and view unchanged, an absent tabName parameter
parses to setup, and each name of the fixed enumeration parses to its
tab. -/
theorem tab_selector_pure_lookup :
    (∀ s t : TabName, selectTab (selectTab s t).fst t = selectTab s t) ∧
    parseTabName none = some TabName.setup ∧
    (["setup", "availability", "apps", "limits", "recurring", "team",
      "advanced", "workflows", "webhooks"].map fun s => parseTabName (some s)) =
      [some TabName.setup, some TabName.availability, some TabName.apps,
       some TabName.limits, some TabName.recurring, some TabName.team,
       some TabName.advanced, some TabName.workflows, some TabName.webhooks] :=
  ⟨fun _ _ => rfl, rfl, rfl⟩

/-- C10 counterexample: a negative seat count is truthy, so the draft
with seat count minus one and the HOLD payment option is rejected with
the conflict error although its seat count is not strictly positive,
refuting the claim that the error is raised only for strictly positive
counts. -/
theorem negative_seats_still_conflict :
    vHoldNeg.seatsPerTimeSlot = some (-1) ∧
    ¬ (0 < (-1 : Int)) ∧
    handleSubmitMain 3 vHoldNeg = Except.error SubmitError.seatsPaymentConflict := by
  refine ⟨rfl, by decide, rfl⟩

/-- C10 amended: given the four earlier checks pass and the stripe
payment option is HOLD, the named handleSubmit raises the conflict
error exactly when seatsPerTimeSlot is truthy, that is non-null and
nonzero; for a null or zero seat count the draft reaches the mutate
call. -/
theorem seats_conflict_iff_truthy (id : Int) (v : FormValues)
    (h4 : checksFour v = none)
    (hold : stripePaymentOption v.metadata = some "HOLD") :
    (handleSubmitMain id v = Except.error SubmitError.seatsPaymentConflict ↔
      jsTruthyOptInt v.seatsPerTimeSlot = true) ∧
    (jsTruthyOptInt v.seatsPerTimeSlot = false →
      handleSubmitMain id v = Except.ok (mkMainPayload id v)) := by
  obtain ⟨h1, h2, h3, h4a, h5⟩ := (checksFour_none_iff v).mp h4
  by_cases h6 : seatsHoldConflict v
  · have ht : jsTruthyOptInt v.seatsPerTimeSlot = true := by
      unfold seatsHoldConflict at h6
      exact (Bool.and_eq_true _ _).mp h6 |>.2
    constructor
    · constructor
      · intro _
        exact ht
      · intro _
        unfold handleSubmitMain
        simp [h1, h2, h3, h4a, h5, h6]
    · intro hf
      rw [ht] at hf
      exact absurd hf (by decide)
  · have hf : jsTruthyOptInt v.seatsPerTimeSlot = false := by
      unfold seatsHoldConflict at h6
      rw [hold] at h6
      simpa using h6
    constructor
    · constructor
      · intro habs
        exfalso
        unfold handleSubmitMain at habs
        simp [h1, h2, h3, h4a, h5, h6] at habs
      · intro ht
        rw [hf] at ht
        exact absurd ht (by decide)
    · intro _
      unfold handleSubmitMain
      simp [h1, h2, h3, h4a, h5, h6]

/-- C10 witness: the zero-seat HOLD draft passes the four earlier
checks, is not rejected by the conflict check and reaches the mutate
call. -/
theorem seats_conflict_iff_truthy_witness :
    checksFour vHoldZero = none ∧
    ((handleSubmitMain 4 vHoldZero = Except.error SubmitError.seatsPaymentConflict ↔
      jsTruthyOptInt vHoldZero.seatsPerTimeSlot = true) ∧
     (jsTruthyOptInt vHoldZero.seatsPerTimeSlot = false →
      handleSubmitMain 4 vHoldZero = Except.ok (mkMainPayload 4 vHoldZero))) :=
  ⟨rfl, seats_conflict_iff_truthy 4 vHoldZero rfl rfl⟩
